import Mathlib

/-!
Verification of the terrain-adaptive rover simulator in
src/components/DesignSpecs.tsx: the terrain height field, the per-tick
kinematic pose solver, the rocker-bogie suspension articulation, the
mission state machine, the appendage easing, and the effect teardown.
JavaScript floating-point numbers are modelled as exact reals.
-/

/-- Mission phases of the state machine (source: the missionState strings
in DesignSpecs.tsx).  DRIVE_OUT is the phase the specification calls
TRAVERSE. -/
inductive Mission where
  | DRIVE_OUT
  | SCAN
  | SAMPLE
  | RETURN
  deriving DecidableEq

/-- All mutable simulation state carried between ticks of the animate loop:
the mission phase and its timer, the rover position (roverPos.x, roverPos.z
and the root y set from terrain), the smoothed root rotations, the two
rocker joint angles and the appendage joint angles mutated by the mission
logic. -/
structure RoverState where
  missionState : Mission
  stateTimer : ℝ
  posX : ℝ
  posZ : ℝ
  rootY : ℝ
  rotZ : ℝ
  rotX : ℝ
  rockerLRotZ : ℝ
  rockerRRotZ : ℝ
  armBaseRotY : ℝ
  armShoulderRotZ : ℝ
  armElbowRotZ : ℝ
  tailBaseRotY : ℝ
  tailMidRotZ : ℝ

/-- THREE.MathUtils.lerp: linear interpolation from a toward b by factor t. -/
noncomputable def lerp (a b t : ℝ) : ℝ := a + (b - a) * t

/-- Math.atan2.  Every call site in the source passes a positive second
argument, where atan2 y x equals arctan (y / x). -/
noncomputable def atan2 (y x : ℝ) : ℝ :=
  if 0 < x then Real.arctan (y / x)
  else if x < 0 then
    (if 0 ≤ y then Real.arctan (y / x) + Real.pi else Real.arctan (y / x) - Real.pi)
  else if 0 < y then Real.pi / 2
  else if y < 0 then -(Real.pi / 2)
  else 0

/-- getTerrainHeight (DesignSpecs.tsx lines 8-28): three additive sinusoidal
bands; inside the lateral band with |z| < 4 the accumulated sum is scaled by
0.6 and two high-frequency ripples are added; the result is floor-clamped
at -5. -/
noncomputable def getTerrainHeight (x z : ℝ) : ℝ :=
  let y0 := Real.sin (x * 0.1) * Real.cos (z * 0.1) * 2.0
  let y1 := y0 + Real.sin (x * 0.3 + z * 0.2) * 0.5
  let y2 := y1 + Real.cos (x * 0.5) * 0.2
  let distFromCenter := |z|
  let y3 :=
    if distFromCenter < 4 then
      y2 * 0.6 + Real.sin (x * 1.5) * 0.15 + Real.cos (x * 3.5) * 0.05
    else y2
  max (-5) y3

/-- Terrain reference transcribing claim C2 word for word: inside the band
only the large-scale dune component is attenuated, while the medium and fine
bands keep full amplitude, and the two ripple terms are added. -/
noncomputable def claimTerrainHeight (x z : ℝ) : ℝ :=
  let large := Real.sin (x * 0.1) * Real.cos (z * 0.1) * 2.0
  let medium := Real.sin (x * 0.3 + z * 0.2) * 0.5
  let fine := Real.cos (x * 0.5) * 0.2
  let y :=
    if |z| < 4 then
      large * 0.6 + medium + fine + Real.sin (x * 1.5) * 0.15 + Real.cos (x * 3.5) * 0.05
    else large + medium + fine
  max (-5) y

/-- Terrain reference transcribing the amended wording of C2: inside the band
the whole three-band sum is attenuated by 0.6, then the two ripple terms are
added; the result is floor-clamped at -5. -/
noncomputable def amendedTerrainHeight (x z : ℝ) : ℝ :=
  let large := Real.sin (x * 0.1) * Real.cos (z * 0.1) * 2.0
  let medium := Real.sin (x * 0.3 + z * 0.2) * 0.5
  let fine := Real.cos (x * 0.5) * 0.2
  let base := large + medium + fine
  let y :=
    if |z| < 4 then
      base * 0.6 + Real.sin (x * 1.5) * 0.15 + Real.cos (x * 3.5) * 0.05
    else base
  max (-5) y

/-- Dwell time of each phase before its timed transition
(DesignSpecs.tsx lines 393, 405, 421, 429). -/
noncomputable def dwell : Mission → ℝ
  | Mission.DRIVE_OUT => 6
  | Mission.SCAN => 3
  | Mission.SAMPLE => 4
  | Mission.RETURN => 3

/-- Successor phase of each phase in the cyclic mission sequence. -/
def nextPhase : Mission → Mission
  | Mission.DRIVE_OUT => Mission.SCAN
  | Mission.SCAN => Mission.SAMPLE
  | Mission.SAMPLE => Mission.RETURN
  | Mission.RETURN => Mission.DRIVE_OUT

/-- Longitudinal position after the drive step (DesignSpecs.tsx lines
309-311): the rover advances by 3.0 * dt only in the moving phases. -/
noncomputable def moveX (dt : ℝ) (s : RoverState) : ℝ :=
  if s.missionState = Mission.DRIVE_OUT ∨ s.missionState = Mission.RETURN then
    s.posX + 3.0 * dt
  else s.posX

/-- The terrain-loop wrap condition (DesignSpecs.tsx line 314): in a moving
phase the position after the drive step exceeds 60. -/
@[reducible] def didWrap (dt : ℝ) (s : RoverState) : Prop :=
  (s.missionState = Mission.DRIVE_OUT ∨ s.missionState = Mission.RETURN) ∧
    60 < moveX dt s

/-- The pitch sample slope (DesignSpecs.tsx lines 326-333): atan2 of the
front/back height difference over twice the 1.2 sample offset. -/
noncomputable def pitchTarget (h : ℝ → ℝ → ℝ) (x z : ℝ) : ℝ :=
  atan2 (h (x + 1.2) z - h (x - 1.2) z) (1.2 * 2)

/-- The roll sample slope (DesignSpecs.tsx lines 329-336): atan2 of the
left/right height difference over 1.6. -/
noncomputable def rollTarget (h : ℝ → ℝ → ℝ) (x z : ℝ) : ℝ :=
  atan2 (h x (z + 0.8) - h x (z - 0.8)) 1.6

/-- Left rocker raw slope (DesignSpecs.tsx lines 357-359). -/
noncomputable def rockerAngleL (h : ℝ → ℝ → ℝ) (x z : ℝ) : ℝ :=
  atan2 (h (x + 1.0) (z + 0.8) - h (x - 1.0) (z + 0.8)) 2.0

/-- Right rocker raw slope (DesignSpecs.tsx lines 361-363). -/
noncomputable def rockerAngleR (h : ℝ → ℝ → ℝ) (x z : ℝ) : ℝ :=
  atan2 (h (x + 1.0) (z - 0.8) - h (x - 1.0) (z - 0.8)) 2.0

/-- Everything the animate tick does before the mission-logic switch
(DesignSpecs.tsx lines 302-367): advance the phase timer, drive and wrap the
position, snap the root height to terrain plus the 0.73 clearance, smooth
pitch and roll toward the sampled slopes with lerp factor dt * 5, and set
the rocker joint angles relative to the new smoothed pitch with coupling
0.8. -/
noncomputable def baseState (h : ℝ → ℝ → ℝ) (dt : ℝ) (s : RoverState) : RoverState :=
  let x := if didWrap dt s then -60 else moveX dt s
  { missionState := if didWrap dt s then Mission.DRIVE_OUT else s.missionState
    stateTimer := if didWrap dt s then 0 else s.stateTimer + dt
    posX := x
    posZ := s.posZ
    rootY := h x s.posZ + 0.73
    rotZ := lerp s.rotZ (pitchTarget h x s.posZ) (dt * 5)
    rotX := lerp s.rotX (-(rollTarget h x s.posZ)) (dt * 5)
    rockerLRotZ := (rockerAngleL h x s.posZ - lerp s.rotZ (pitchTarget h x s.posZ) (dt * 5)) * 0.8
    rockerRRotZ := (rockerAngleR h x s.posZ - lerp s.rotZ (pitchTarget h x s.posZ) (dt * 5)) * 0.8
    armBaseRotY := s.armBaseRotY
    armShoulderRotZ := s.armShoulderRotZ
    armElbowRotZ := s.armElbowRotZ
    tailBaseRotY := s.tailBaseRotY
    tailMidRotZ := s.tailMidRotZ }

/-- The mission-logic switch (DesignSpecs.tsx lines 386-434): each phase
asserts its appendage motions every tick, then transitions to its successor
once its timer exceeds its dwell, resetting the timer. -/
noncomputable def missionStep (dt time : ℝ) (b : RoverState) : RoverState :=
  match b.missionState with
  | Mission.DRIVE_OUT =>
      let b1 := { b with
        armBaseRotY := lerp b.armBaseRotY 0 (dt * 2)
        armShoulderRotZ := lerp b.armShoulderRotZ (-(Real.pi / 2)) (dt * 2) }
      if 6 < b.stateTimer then { b1 with missionState := Mission.SCAN, stateTimer := 0 }
      else b1
  | Mission.SCAN =>
      let b1 := { b with
        tailBaseRotY := Real.sin (time * 2) * 0.8
        tailMidRotZ := Real.pi / 3 + Real.sin (time * 3) * 0.2 }
      if 3 < b.stateTimer then { b1 with missionState := Mission.SAMPLE, stateTimer := 0 }
      else b1
  | Mission.SAMPLE =>
      let b1 := { b with
        tailBaseRotY := lerp b.tailBaseRotY 0 dt
        armBaseRotY := lerp b.armBaseRotY (Real.pi / 4) (dt * 2)
        armShoulderRotZ := lerp b.armShoulderRotZ 0 (dt * 2)
        armElbowRotZ := lerp b.armElbowRotZ (-(Real.pi / 2)) (dt * 2) }
      if 4 < b.stateTimer then { b1 with missionState := Mission.RETURN, stateTimer := 0 }
      else b1
  | Mission.RETURN =>
      if 3 < b.stateTimer then { b with missionState := Mission.DRIVE_OUT, stateTimer := 0 }
      else b

/-- One full animate tick (DesignSpecs.tsx lines 299-438) on the simulation
state, parameterised by the height field h, the frame delta dt and the
elapsed clock time. -/
noncomputable def tick (h : ℝ → ℝ → ℝ) (dt time : ℝ) (s : RoverState) : RoverState :=
  missionStep dt time (baseState h dt s)

/-- The state at the start of the animate loop (DesignSpecs.tsx lines
295-297 plus the Object3D rotations as built: all zero except the tail mid
joint, which is constructed at Math.PI / 3 on line 268). -/
noncomputable def initialState : RoverState :=
  { missionState := Mission.DRIVE_OUT
    stateTimer := 0
    posX := -20
    posZ := 0
    rootY := 0
    rotZ := 0
    rotX := 0
    rockerLRotZ := 0
    rockerRRotZ := 0
    armBaseRotY := 0
    armShoulderRotZ := 0
    armElbowRotZ := 0
    tailBaseRotY := 0
    tailMidRotZ := Real.pi / 3 }

/-- A perfectly flat height field, used for concrete evaluations. -/
noncomputable def flatH : ℝ → ℝ → ℝ := fun _ _ => 0

/-- Concrete state used against claim C1: the rover is in RETURN with a
fresh phase timer, just short of the 60-unit travel bound. -/
noncomputable def returnNearEdgeState : RoverState :=
  { initialState with missionState := Mission.RETURN, posX := 59 }

/-- Concrete state used against claim C10: DRIVE_OUT just short of the
travel bound. -/
noncomputable def driveNearEdgeState : RoverState :=
  { initialState with missionState := Mission.DRIVE_OUT, posX := 59 }

/-- Concrete idle SCAN state used as a witness input. -/
noncomputable def scanIdleState : RoverState :=
  { initialState with missionState := Mission.SCAN }

/-- Concrete idle SAMPLE state used as a witness input. -/
noncomputable def sampleIdleState : RoverState :=
  { initialState with missionState := Mission.SAMPLE }

/-- Concrete state used against claim C8: initial state with a tilted root. -/
noncomputable def stalledState : RoverState :=
  { initialState with rotZ := 1 }

/-- Resources held by the Rover3DScene effect that its cleanup releases:
whether the resize listener is registered, whether the renderer canvas is
still a child of the mount node, whether the mount ref is non-null, and
whether the renderer was disposed. -/
structure TeardownEnv where
  resizeListener : Bool
  childAttached : Bool
  mountPresent : Bool
  disposed : Bool
  deriving DecidableEq

/-- The one exception the teardown sequence can raise. -/
inductive DomError where
  | notFound
  deriving DecidableEq

/-- window.removeEventListener: removing an absent listener is a no-op per
the DOM specification. -/
def removeEventListenerOp (e : TeardownEnv) : TeardownEnv :=
  { e with resizeListener := false }

/-- Node.removeChild: per the DOM specification it throws a NotFoundError
when the argument is not currently a child of the node. -/
def removeChildOp (e : TeardownEnv) : Except DomError TeardownEnv :=
  if e.childAttached then Except.ok { e with childAttached := false }
  else Except.error DomError.notFound

/-- WebGLRenderer.dispose: safe to call repeatedly. -/
def disposeOp (e : TeardownEnv) : TeardownEnv :=
  { e with disposed := true }

/-- The effect cleanup of Rover3DScene (DesignSpecs.tsx lines 450-454):
remove the resize listener, then, if the mount ref is non-null, remove the
renderer canvas from it (which can throw), then dispose the renderer.  A
thrown exception aborts the remaining steps. -/
def teardown (e : TeardownEnv) : Except DomError TeardownEnv :=
  let e1 := removeEventListenerOp e
  match (if e1.mountPresent then removeChildOp e1 else Except.ok e1) with
  | Except.error err => Except.error err
  | Except.ok e2 => Except.ok (disposeOp e2)

/-- Running the cleanup twice in a row, as claim C9 considers. -/
def teardownTwice (e : TeardownEnv) : Except DomError TeardownEnv :=
  match teardown e with
  | Except.error err => Except.error err
  | Except.ok e1 => teardown e1

/-- The fully acquired resource state right before unmount. -/
def fullyMounted : TeardownEnv :=
  { resizeListener := true, childAttached := true, mountPresent := true, disposed := false }

/-- Resource state whose mount ref was already cleared. -/
def clearedMount : TeardownEnv :=
  { resizeListener := true, childAttached := true, mountPresent := false, disposed := false }

lemma atan2_of_pos (y x : ℝ) (hx : 0 < x) : atan2 y x = Real.arctan (y / x) := by
  unfold atan2
  rw [if_pos hx]

lemma lerp_le_max (a b t : ℝ) (h0 : 0 ≤ t) (h1 : t ≤ 1) : lerp a b t ≤ max a b := by
  rcases le_total a b with hab | hab
  · rw [max_eq_right hab]
    unfold lerp
    nlinarith
  · rw [max_eq_left hab]
    unfold lerp
    nlinarith

lemma min_le_lerp (a b t : ℝ) (h0 : 0 ≤ t) (h1 : t ≤ 1) : min a b ≤ lerp a b t := by
  rcases le_total a b with hab | hab
  · rw [min_eq_left hab]
    unfold lerp
    nlinarith
  · rw [min_eq_right hab]
    unfold lerp
    nlinarith

lemma missionStep_posX (dt time : ℝ) (b : RoverState) :
    (missionStep dt time b).posX = b.posX := by
  unfold missionStep
  rcases b with ⟨m, t, px, pz, ry, rz, rx, rl, rr, ab, ash, ae, tb, tm⟩
  cases m <;> simp <;> split <;> rfl

lemma missionStep_posZ (dt time : ℝ) (b : RoverState) :
    (missionStep dt time b).posZ = b.posZ := by
  unfold missionStep
  rcases b with ⟨m, t, px, pz, ry, rz, rx, rl, rr, ab, ash, ae, tb, tm⟩
  cases m <;> simp <;> split <;> rfl

lemma missionStep_rootY (dt time : ℝ) (b : RoverState) :
    (missionStep dt time b).rootY = b.rootY := by
  unfold missionStep
  rcases b with ⟨m, t, px, pz, ry, rz, rx, rl, rr, ab, ash, ae, tb, tm⟩
  cases m <;> simp <;> split <;> rfl

lemma missionStep_rotZ (dt time : ℝ) (b : RoverState) :
    (missionStep dt time b).rotZ = b.rotZ := by
  unfold missionStep
  rcases b with ⟨m, t, px, pz, ry, rz, rx, rl, rr, ab, ash, ae, tb, tm⟩
  cases m <;> simp <;> split <;> rfl

lemma missionStep_rotX (dt time : ℝ) (b : RoverState) :
    (missionStep dt time b).rotX = b.rotX := by
  unfold missionStep
  rcases b with ⟨m, t, px, pz, ry, rz, rx, rl, rr, ab, ash, ae, tb, tm⟩
  cases m <;> simp <;> split <;> rfl

lemma missionStep_rockerL (dt time : ℝ) (b : RoverState) :
    (missionStep dt time b).rockerLRotZ = b.rockerLRotZ := by
  unfold missionStep
  rcases b with ⟨m, t, px, pz, ry, rz, rx, rl, rr, ab, ash, ae, tb, tm⟩
  cases m <;> simp <;> split <;> rfl

lemma missionStep_rockerR (dt time : ℝ) (b : RoverState) :
    (missionStep dt time b).rockerRRotZ = b.rockerRRotZ := by
  unfold missionStep
  rcases b with ⟨m, t, px, pz, ry, rz, rx, rl, rr, ab, ash, ae, tb, tm⟩
  cases m <;> simp <;> split <;> rfl

lemma missionStep_phase (dt time : ℝ) (b : RoverState) :
    ((missionStep dt time b).missionState, (missionStep dt time b).stateTimer) =
      if dwell b.missionState < b.stateTimer then (nextPhase b.missionState, (0 : ℝ))
      else (b.missionState, b.stateTimer) := by
  unfold missionStep dwell nextPhase
  rcases b with ⟨m, t, px, pz, ry, rz, rx, rl, rr, ab, ash, ae, tb, tm⟩
  cases m <;> simp <;> split <;> rfl

lemma tick_posX (h : ℝ → ℝ → ℝ) (dt time : ℝ) (s : RoverState) :
    (tick h dt time s).posX = if didWrap dt s then -60 else moveX dt s := by
  rw [tick, missionStep_posX]
  rfl

lemma tick_posZ (h : ℝ → ℝ → ℝ) (dt time : ℝ) (s : RoverState) :
    (tick h dt time s).posZ = s.posZ := by
  rw [tick, missionStep_posZ]
  rfl

lemma tick_rootY (h : ℝ → ℝ → ℝ) (dt time : ℝ) (s : RoverState) :
    (tick h dt time s).rootY = h ((tick h dt time s).posX) s.posZ + 0.73 := by
  rw [tick, missionStep_rootY, missionStep_posX]
  rfl

lemma tick_rotZ (h : ℝ → ℝ → ℝ) (dt time : ℝ) (s : RoverState) :
    (tick h dt time s).rotZ =
      lerp s.rotZ (pitchTarget h ((tick h dt time s).posX) s.posZ) (dt * 5) := by
  rw [tick, missionStep_rotZ, missionStep_posX]
  rfl

lemma tick_rotX (h : ℝ → ℝ → ℝ) (dt time : ℝ) (s : RoverState) :
    (tick h dt time s).rotX =
      lerp s.rotX (-(rollTarget h ((tick h dt time s).posX) s.posZ)) (dt * 5) := by
  rw [tick, missionStep_rotX, missionStep_posX]
  rfl

lemma tick_rockerL (h : ℝ → ℝ → ℝ) (dt time : ℝ) (s : RoverState) :
    (tick h dt time s).rockerLRotZ =
      (rockerAngleL h ((tick h dt time s).posX) s.posZ - (tick h dt time s).rotZ) * 0.8 := by
  rw [tick, missionStep_rockerL, missionStep_posX, missionStep_rotZ]
  rfl

lemma tick_rockerR (h : ℝ → ℝ → ℝ) (dt time : ℝ) (s : RoverState) :
    (tick h dt time s).rockerRRotZ =
      (rockerAngleR h ((tick h dt time s).posX) s.posZ - (tick h dt time s).rotZ) * 0.8 := by
  rw [tick, missionStep_rockerR, missionStep_posX, missionStep_rotZ]
  rfl

lemma baseState_mission_driveOut (h : ℝ → ℝ → ℝ) (dt : ℝ) (s : RoverState)
    (hm : s.missionState = Mission.DRIVE_OUT) :
    (baseState h dt s).missionState = Mission.DRIVE_OUT := by
  unfold baseState
  split <;> simp [hm]

lemma tick_armShoulder_driveOut (h : ℝ → ℝ → ℝ) (dt time : ℝ) (s : RoverState)
    (hm : s.missionState = Mission.DRIVE_OUT) :
    (tick h dt time s).armShoulderRotZ =
      lerp s.armShoulderRotZ (-(Real.pi / 2)) (dt * 2) := by
  rw [tick]
  unfold missionStep
  rw [baseState_mission_driveOut h dt s hm]
  have hsh : (baseState h dt s).armShoulderRotZ = s.armShoulderRotZ := rfl
  simp only [hsh]
  split <;> rfl

lemma tick_armBase_driveOut (h : ℝ → ℝ → ℝ) (dt time : ℝ) (s : RoverState)
    (hm : s.missionState = Mission.DRIVE_OUT) :
    (tick h dt time s).armBaseRotY = lerp s.armBaseRotY 0 (dt * 2) := by
  rw [tick]
  unfold missionStep
  rw [baseState_mission_driveOut h dt s hm]
  have hab : (baseState h dt s).armBaseRotY = s.armBaseRotY := rfl
  simp only [hab]
  split <;> rfl

lemma baseState_mission_sample (h : ℝ → ℝ → ℝ) (dt : ℝ) (s : RoverState)
    (hm : s.missionState = Mission.SAMPLE) :
    (baseState h dt s).missionState = Mission.SAMPLE := by
  have hnw : ¬ didWrap dt s := by
    rintro ⟨(h1 | h1), _⟩ <;> rw [hm] at h1 <;> simp at h1
  unfold baseState
  simp [hnw, hm]

lemma tick_appendages_sample (h : ℝ → ℝ → ℝ) (dt time : ℝ) (s : RoverState)
    (hm : s.missionState = Mission.SAMPLE) :
    (tick h dt time s).tailBaseRotY = lerp s.tailBaseRotY 0 dt
    ∧ (tick h dt time s).armBaseRotY = lerp s.armBaseRotY (Real.pi / 4) (dt * 2)
    ∧ (tick h dt time s).armShoulderRotZ = lerp s.armShoulderRotZ 0 (dt * 2)
    ∧ (tick h dt time s).armElbowRotZ = lerp s.armElbowRotZ (-(Real.pi / 2)) (dt * 2) := by
  rw [tick]
  unfold missionStep
  rw [baseState_mission_sample h dt s hm]
  have h1 : (baseState h dt s).tailBaseRotY = s.tailBaseRotY := rfl
  have h2 : (baseState h dt s).armBaseRotY = s.armBaseRotY := rfl
  have h3 : (baseState h dt s).armShoulderRotZ = s.armShoulderRotZ := rfl
  have h4 : (baseState h dt s).armElbowRotZ = s.armElbowRotZ := rfl
  simp only [h1, h2, h3, h4]
  refine ⟨?_, ?_, ?_, ?_⟩ <;> (split <;> rfl)

lemma lerp_overshoot (a b t : ℝ) (ht : 1 < t) (hab : a ≠ b) :
    0 < (lerp a b t - b) * (b - a) := by
  have hrw : (lerp a b t - b) * (b - a) = (b - a) * (b - a) * (t - 1) := by
    unfold lerp
    ring
  rw [hrw]
  rcases lt_or_gt_of_ne hab with hlt | hgt
  · have hba : 0 < b - a := sub_pos.mpr hlt
    have ht1 : 0 < t - 1 := sub_pos.mpr ht
    exact mul_pos (mul_pos hba hba) ht1
  · have hba : b - a < 0 := sub_neg.mpr hgt
    have ht1 : 0 < t - 1 := sub_pos.mpr ht
    exact mul_pos (mul_pos_of_neg_of_neg hba hba) ht1

/-- C2 counterexample: at (x, z) = (0, 0) the code's height differs from the
claim's reference definition in which only the large-scale component is
attenuated inside the path band: the code attenuates the whole three-band
sum, giving 0.17 instead of the claimed 0.25. -/
theorem terrain_band_counterexample : getTerrainHeight 0 0 ≠ claimTerrainHeight 0 0 := by
  unfold getTerrainHeight claimTerrainHeight
  norm_num [Real.sin_zero, Real.cos_zero, max_def]

/-- C2 (amended): height(x, z) equals the reference in which, inside the
band, the entire three-band sum is attenuated by 0.6 before the two ripple
terms are added; the result is floor-clamped, hence always at least -5, and
the function is deterministic by construction. -/
theorem terrain_height_amended (x z : ℝ) :
    getTerrainHeight x z = amendedTerrainHeight x z ∧ -5 ≤ getTerrainHeight x z := by
  constructor
  · rfl
  · exact le_max_left _ _

/-- C3: every tick sets the pitch sample slope to the arctangent of the
front minus back height samples over twice the 1.2 offset, the roll slope
analogously from the lateral samples over twice the 0.8 offset, smooths the
applied rotations toward those targets, and sets the vertical position
directly (unsmoothed) to the terrain height at the vehicle center plus the
fixed 0.73 clearance. -/
theorem pose_solver_targets (h : ℝ → ℝ → ℝ) (dt time : ℝ) (s : RoverState) :
    (tick h dt time s).rootY =
        h ((tick h dt time s).posX) ((tick h dt time s).posZ) + 0.73
    ∧ pitchTarget h ((tick h dt time s).posX) s.posZ =
        Real.arctan ((h ((tick h dt time s).posX + 1.2) s.posZ
          - h ((tick h dt time s).posX - 1.2) s.posZ) / (2 * 1.2))
    ∧ rollTarget h ((tick h dt time s).posX) s.posZ =
        Real.arctan ((h ((tick h dt time s).posX) (s.posZ + 0.8)
          - h ((tick h dt time s).posX) (s.posZ - 0.8)) / (2 * 0.8))
    ∧ (tick h dt time s).rotZ =
        lerp s.rotZ (pitchTarget h ((tick h dt time s).posX) s.posZ) (dt * 5)
    ∧ (tick h dt time s).rotX =
        lerp s.rotX (-(rollTarget h ((tick h dt time s).posX) s.posZ)) (dt * 5) := by
  refine ⟨?_, ?_, ?_, tick_rotZ h dt time s, tick_rotX h dt time s⟩
  · rw [tick_rootY, tick_posZ]
  · rw [pitchTarget, atan2_of_pos _ _ (by norm_num)]
    norm_num
  · rw [rollTarget, atan2_of_pos _ _ (by norm_num)]
    norm_num

/-- C5: for each side independently, the raw side angle is the arctangent of
the height difference between the samples half a wheelbase ahead and behind
at that side's lateral offset, over the full 2.0 wheelbase, and the applied
rocker joint angle is that raw angle minus the vehicle's current smoothed
pitch, scaled by the 0.8 coupling factor, which is strictly less than one. -/
theorem rocker_articulation (h : ℝ → ℝ → ℝ) (dt time : ℝ) (s : RoverState) :
    (tick h dt time s).rockerLRotZ =
        (rockerAngleL h ((tick h dt time s).posX) s.posZ - (tick h dt time s).rotZ) * 0.8
    ∧ (tick h dt time s).rockerRRotZ =
        (rockerAngleR h ((tick h dt time s).posX) s.posZ - (tick h dt time s).rotZ) * 0.8
    ∧ rockerAngleL h ((tick h dt time s).posX) s.posZ =
        Real.arctan ((h ((tick h dt time s).posX + 1.0) (s.posZ + 0.8)
          - h ((tick h dt time s).posX - 1.0) (s.posZ + 0.8)) / 2.0)
    ∧ rockerAngleR h ((tick h dt time s).posX) s.posZ =
        Real.arctan ((h ((tick h dt time s).posX + 1.0) (s.posZ - 0.8)
          - h ((tick h dt time s).posX - 1.0) (s.posZ - 0.8)) / 2.0)
    ∧ (tick h dt time s).rotZ =
        lerp s.rotZ (pitchTarget h ((tick h dt time s).posX) s.posZ) (dt * 5)
    ∧ (0.8 : ℝ) < 1 := by
  refine ⟨tick_rockerL h dt time s, tick_rockerR h dt time s, ?_, ?_,
    tick_rotZ h dt time s, by norm_num⟩
  · rw [rockerAngleL, atan2_of_pos _ _ (by norm_num)]
  · rw [rockerAngleR, atan2_of_pos _ _ (by norm_num)]

/-- C1 counterexample: from a RETURN state with a fresh timer just short of
the travel bound, one tick of one time unit moves the phase to DRIVE_OUT
even though the RETURN dwell of 3 units was not exceeded — the position
wrap, not the phase timer, changed the phase. -/
theorem mission_cycle_counterexample :
    returnNearEdgeState.missionState = Mission.RETURN
    ∧ returnNearEdgeState.stateTimer + 1 < dwell Mission.RETURN
    ∧ (tick flatH 1 0 returnNearEdgeState).missionState = Mission.DRIVE_OUT := by
  have hw : didWrap 1 returnNearEdgeState := by
    refine ⟨Or.inr rfl, ?_⟩
    norm_num [moveX, returnNearEdgeState, initialState]
  have h1 : (baseState flatH 1 returnNearEdgeState).missionState = Mission.DRIVE_OUT := by
    unfold baseState
    simp [hw]
  have h2 : (baseState flatH 1 returnNearEdgeState).stateTimer = 0 := by
    unfold baseState
    simp [hw]
  have hp := missionStep_phase 1 0 (baseState flatH 1 returnNearEdgeState)
  rw [h1, h2, if_neg (by norm_num [dwell] : ¬ dwell Mission.DRIVE_OUT < (0 : ℝ))] at hp
  refine ⟨rfl, by norm_num [returnNearEdgeState, initialState, dwell], ?_⟩
  have := congrArg Prod.fst hp
  simpa [tick] using this

/-- C1 (amended): the phase and timer follow the cyclic timer-triggered
machine with dwells 6, 3, 4, 3 — transition to the successor with the timer
reset exactly when the timer exceeds the dwell — except that the position
wrap past 60 in a moving phase also forces the phase to DRIVE_OUT and
resets the timer. -/
theorem mission_cycle_amended (h : ℝ → ℝ → ℝ) (dt time : ℝ) (s : RoverState) :
    ((tick h dt time s).missionState, (tick h dt time s).stateTimer) =
      if didWrap dt s then (Mission.DRIVE_OUT, (0 : ℝ))
      else if dwell s.missionState < s.stateTimer + dt then (nextPhase s.missionState, (0 : ℝ))
      else (s.missionState, s.stateTimer + dt) := by
  rw [tick, missionStep_phase]
  by_cases hw : didWrap dt s
  · have h1 : (baseState h dt s).missionState = Mission.DRIVE_OUT := by
      unfold baseState
      simp [hw]
    have h2 : (baseState h dt s).stateTimer = 0 := by
      unfold baseState
      simp [hw]
    rw [h1, h2, if_pos hw, if_neg (by norm_num [dwell] : ¬ dwell Mission.DRIVE_OUT < (0 : ℝ))]
  · have h1 : (baseState h dt s).missionState = s.missionState := by
      unfold baseState
      simp [hw]
    have h2 : (baseState h dt s).stateTimer = s.stateTimer + dt := by
      unfold baseState
      simp [hw]
    rw [h1, h2, if_neg hw]

/-- C4 counterexample: in DRIVE_OUT with the shoulder at 0 and target -pi/2,
a tick with dt = 1 multiplies the gap by dt * 2 = 2 and lands on -pi, far
past the target — the update is a linear interpolation scaled by dt, not an
exponential easing, and it overshoots whenever rate * dt exceeds one. -/
theorem easing_overshoot_counterexample :
    initialState.missionState = Mission.DRIVE_OUT
    ∧ initialState.armShoulderRotZ = 0
    ∧ (tick flatH 1 0 initialState).armShoulderRotZ = -Real.pi
    ∧ (tick flatH 1 0 initialState).armShoulderRotZ
        < min initialState.armShoulderRotZ (-(Real.pi / 2)) := by
  have hπ := Real.pi_pos
  have hsh := tick_armShoulder_driveOut flatH 1 0 initialState rfl
  have hval : (tick flatH 1 0 initialState).armShoulderRotZ = -Real.pi := by
    rw [hsh]
    show lerp (0 : ℝ) (-(Real.pi / 2)) (1 * 2) = -Real.pi
    unfold lerp
    ring
  refine ⟨rfl, rfl, hval, ?_⟩
  rw [hval]
  have hmin : min initialState.armShoulderRotZ (-(Real.pi / 2)) = -(Real.pi / 2) := by
    rw [min_eq_right]
    show -(Real.pi / 2) ≤ (0 : ℝ)
    linarith
  rw [hmin]
  linarith

/-- C4 (amended): every smoothed quantity is updated by linear interpolation
toward its target with factor rate * dt — rate 5 for pitch and roll, rate 2
for the arm base and shoulder asserted in DRIVE_OUT and for the arm base,
shoulder and elbow asserted in SAMPLE, rate 1 for the tail base in SAMPLE —
a dt-scaled lerp, not an exponential easing; whenever that quantity's
rate * dt lies in [0, 1] the updated value stays between the previous value
and the target, and whenever rate * dt exceeds 1 a lerp update with
distinct value and target strictly overshoots the target, as instantiated
for the smoothed pitch. -/
theorem easing_linear_bounded (h : ℝ → ℝ → ℝ) (dt time : ℝ) (s : RoverState)
    (hdt : 0 ≤ dt) :
    ((tick h dt time s).rotZ =
        lerp s.rotZ (pitchTarget h ((tick h dt time s).posX) s.posZ) (dt * 5)
      ∧ (dt * 5 ≤ 1 →
          min s.rotZ (pitchTarget h ((tick h dt time s).posX) s.posZ)
              ≤ (tick h dt time s).rotZ
          ∧ (tick h dt time s).rotZ
              ≤ max s.rotZ (pitchTarget h ((tick h dt time s).posX) s.posZ)))
    ∧ ((tick h dt time s).rotX =
        lerp s.rotX (-(rollTarget h ((tick h dt time s).posX) s.posZ)) (dt * 5)
      ∧ (dt * 5 ≤ 1 →
          min s.rotX (-(rollTarget h ((tick h dt time s).posX) s.posZ))
              ≤ (tick h dt time s).rotX
          ∧ (tick h dt time s).rotX
              ≤ max s.rotX (-(rollTarget h ((tick h dt time s).posX) s.posZ))))
    ∧ (s.missionState = Mission.DRIVE_OUT →
        (tick h dt time s).armBaseRotY = lerp s.armBaseRotY 0 (dt * 2)
        ∧ (tick h dt time s).armShoulderRotZ =
            lerp s.armShoulderRotZ (-(Real.pi / 2)) (dt * 2)
        ∧ (dt * 2 ≤ 1 →
            (min s.armBaseRotY 0 ≤ (tick h dt time s).armBaseRotY
              ∧ (tick h dt time s).armBaseRotY ≤ max s.armBaseRotY 0)
            ∧ (min s.armShoulderRotZ (-(Real.pi / 2)) ≤ (tick h dt time s).armShoulderRotZ
              ∧ (tick h dt time s).armShoulderRotZ
                  ≤ max s.armShoulderRotZ (-(Real.pi / 2)))))
    ∧ (s.missionState = Mission.SAMPLE →
        (tick h dt time s).tailBaseRotY = lerp s.tailBaseRotY 0 dt
        ∧ (tick h dt time s).armBaseRotY = lerp s.armBaseRotY (Real.pi / 4) (dt * 2)
        ∧ (tick h dt time s).armShoulderRotZ = lerp s.armShoulderRotZ 0 (dt * 2)
        ∧ (tick h dt time s).armElbowRotZ = lerp s.armElbowRotZ (-(Real.pi / 2)) (dt * 2)
        ∧ (dt ≤ 1 →
            min s.tailBaseRotY 0 ≤ (tick h dt time s).tailBaseRotY
            ∧ (tick h dt time s).tailBaseRotY ≤ max s.tailBaseRotY 0)
        ∧ (dt * 2 ≤ 1 →
            (min s.armBaseRotY (Real.pi / 4) ≤ (tick h dt time s).armBaseRotY
              ∧ (tick h dt time s).armBaseRotY ≤ max s.armBaseRotY (Real.pi / 4))
            ∧ (min s.armShoulderRotZ 0 ≤ (tick h dt time s).armShoulderRotZ
              ∧ (tick h dt time s).armShoulderRotZ ≤ max s.armShoulderRotZ 0)
            ∧ (min s.armElbowRotZ (-(Real.pi / 2)) ≤ (tick h dt time s).armElbowRotZ
              ∧ (tick h dt time s).armElbowRotZ
                  ≤ max s.armElbowRotZ (-(Real.pi / 2)))))
    ∧ (∀ a b t : ℝ, 1 < t → a ≠ b → 0 < (lerp a b t - b) * (b - a))
    ∧ (1 < dt * 5 → s.rotZ ≠ pitchTarget h ((tick h dt time s).posX) s.posZ →
        0 < ((tick h dt time s).rotZ - pitchTarget h ((tick h dt time s).posX) s.posZ)
          * (pitchTarget h ((tick h dt time s).posX) s.posZ - s.rotZ)) := by
  have h50 : 0 ≤ dt * 5 := by linarith
  have h20 : 0 ≤ dt * 2 := by linarith
  refine ⟨⟨tick_rotZ h dt time s, fun h51 => ⟨?_, ?_⟩⟩,
    ⟨tick_rotX h dt time s, fun h51 => ⟨?_, ?_⟩⟩,
    fun hm => ⟨tick_armBase_driveOut h dt time s hm,
      tick_armShoulder_driveOut h dt time s hm, fun h21 => ⟨⟨?_, ?_⟩, ⟨?_, ?_⟩⟩⟩,
    fun hm => ?_, lerp_overshoot, fun h15 hne => ?_⟩
  · rw [tick_rotZ]
    exact min_le_lerp _ _ _ h50 h51
  · rw [tick_rotZ]
    exact lerp_le_max _ _ _ h50 h51
  · rw [tick_rotX]
    exact min_le_lerp _ _ _ h50 h51
  · rw [tick_rotX]
    exact lerp_le_max _ _ _ h50 h51
  · rw [tick_armBase_driveOut h dt time s hm]
    exact min_le_lerp _ _ _ h20 h21
  · rw [tick_armBase_driveOut h dt time s hm]
    exact lerp_le_max _ _ _ h20 h21
  · rw [tick_armShoulder_driveOut h dt time s hm]
    exact min_le_lerp _ _ _ h20 h21
  · rw [tick_armShoulder_driveOut h dt time s hm]
    exact lerp_le_max _ _ _ h20 h21
  · obtain ⟨e1, e2, e3, e4⟩ := tick_appendages_sample h dt time s hm
    refine ⟨e1, e2, e3, e4, fun h11 => ⟨?_, ?_⟩, fun h21 => ⟨⟨?_, ?_⟩, ⟨?_, ?_⟩, ⟨?_, ?_⟩⟩⟩
    · rw [e1]
      exact min_le_lerp _ _ _ hdt h11
    · rw [e1]
      exact lerp_le_max _ _ _ hdt h11
    · rw [e2]
      exact min_le_lerp _ _ _ h20 h21
    · rw [e2]
      exact lerp_le_max _ _ _ h20 h21
    · rw [e3]
      exact min_le_lerp _ _ _ h20 h21
    · rw [e3]
      exact lerp_le_max _ _ _ h20 h21
    · rw [e4]
      exact min_le_lerp _ _ _ h20 h21
    · rw [e4]
      exact lerp_le_max _ _ _ h20 h21
  · rw [tick_rotZ]
    exact lerp_overshoot _ _ _ h15 hne

/-- C4 witness: the amended easing characterisation applied at dt = 1/10
from an idle SAMPLE state, exercising the rate-1 tail base clause. -/
theorem easing_linear_bounded_witness :
    (0 : ℝ) ≤ 1 / 10
    ∧ sampleIdleState.missionState = Mission.SAMPLE
    ∧ (1 / 10 : ℝ) ≤ 1
    ∧ (tick flatH (1 / 10) 0 sampleIdleState).tailBaseRotY =
        lerp sampleIdleState.tailBaseRotY 0 (1 / 10)
    ∧ min sampleIdleState.tailBaseRotY 0 ≤
        (tick flatH (1 / 10) 0 sampleIdleState).tailBaseRotY :=
  ⟨by norm_num, rfl, by norm_num,
    ((easing_linear_bounded flatH (1 / 10) 0 sampleIdleState (by norm_num)).2.2.2.1 rfl).1,
    (((easing_linear_bounded flatH (1 / 10) 0 sampleIdleState
        (by norm_num)).2.2.2.1 rfl).2.2.2.2.1 (by norm_num)).1⟩

/-- C6: for nonnegative dt, a moving-phase tick whose advanced position
exceeds the 60 upper bound lands exactly on the -60 lower bound, this wrap
is the only way the longitudinal position ever decreases, and positions at
most 60 stay at most 60. -/
theorem position_wrap_bound (h : ℝ → ℝ → ℝ) (dt time : ℝ) (s : RoverState)
    (hdt : 0 ≤ dt) :
    (((s.missionState = Mission.DRIVE_OUT ∨ s.missionState = Mission.RETURN) ∧
        60 < s.posX + 3.0 * dt) → (tick h dt time s).posX = -60)
    ∧ ((tick h dt time s).posX < s.posX → (tick h dt time s).posX = -60)
    ∧ (s.posX ≤ 60 → (tick h dt time s).posX ≤ 60) := by
  rw [tick_posX]
  refine ⟨?_, ?_, ?_⟩
  · rintro ⟨hmov, hgt⟩
    have hw : didWrap dt s := ⟨hmov, by rwa [moveX, if_pos hmov]⟩
    rw [if_pos hw]
  · intro hlt
    by_cases hw : didWrap dt s
    · rw [if_pos hw]
    · exfalso
      rw [if_neg hw, moveX] at hlt
      split_ifs at hlt with hmov
      · linarith
      · exact lt_irrefl _ hlt
  · intro hle
    by_cases hw : didWrap dt s
    · rw [if_pos hw]
      norm_num
    · rw [if_neg hw, moveX]
      split_ifs with hmov
      · by_contra hgt
        push_neg at hgt
        exact hw ⟨hmov, by rwa [moveX, if_pos hmov]⟩
      · exact hle

/-- C6 witness: the wrap clause applied with dt = 1 from DRIVE_OUT at
position 59. -/
theorem position_wrap_bound_witness :
    (0 : ℝ) ≤ 1 ∧ (tick flatH 1 0 driveNearEdgeState).posX = -60 :=
  ⟨by norm_num,
    (position_wrap_bound flatH 1 0 driveNearEdgeState (by norm_num)).1
      ⟨Or.inl rfl, by norm_num [driveNearEdgeState, initialState]⟩⟩

/-- Height field that differs from flatH only at strictly positive lateral
offsets, used to witness the side independence of the suspension. -/
noncomputable def bumpLeftH : ℝ → ℝ → ℝ := fun _ b => if 1 ≤ b then 5 else 0

/-- C7: with the vehicle on the z = 0 track, two height fields that agree at
all nonpositive lateral offsets (so any perturbation lies on the left track
side) give the same right rocker angle after a tick, and symmetrically two
fields agreeing at all nonnegative lateral offsets give the same left
rocker angle. -/
theorem suspension_sides_independent (hA hB : ℝ → ℝ → ℝ) (dt time : ℝ)
    (s : RoverState) (hz : s.posZ = 0) :
    ((∀ a b : ℝ, b ≤ 0 → hA a b = hB a b) →
        (tick hA dt time s).rockerRRotZ = (tick hB dt time s).rockerRRotZ)
    ∧ ((∀ a b : ℝ, 0 ≤ b → hA a b = hB a b) →
        (tick hA dt time s).rockerLRotZ = (tick hB dt time s).rockerLRotZ) := by
  have hx : (tick hA dt time s).posX = (tick hB dt time s).posX := by
    rw [tick_posX, tick_posX]
  constructor
  · intro hag
    have e1 : ∀ a : ℝ, hA a (0 - 0.8) = hB a (0 - 0.8) := fun a =>
      hag a _ (by norm_num)
    have e2 : ∀ a : ℝ, hA a 0 = hB a 0 := fun a => hag a 0 le_rfl
    rw [tick_rockerR, tick_rockerR, tick_rotZ, tick_rotZ, hx, hz]
    unfold rockerAngleR pitchTarget
    simp only [e1, e2]
  · intro hag
    have e1 : ∀ a : ℝ, hA a (0 + 0.8) = hB a (0 + 0.8) := fun a =>
      hag a _ (by norm_num)
    have e2 : ∀ a : ℝ, hA a 0 = hB a 0 := fun a => hag a 0 le_rfl
    rw [tick_rockerL, tick_rockerL, tick_rotZ, tick_rotZ, hx, hz]
    unfold rockerAngleL pitchTarget
    simp only [e1, e2]

/-- C7 witness: the right rocker angle is unaffected when the flat field is
replaced by one perturbed only at positive lateral offsets. -/
theorem suspension_sides_independent_witness :
    initialState.posZ = 0 ∧
    (tick bumpLeftH 1 0 initialState).rockerRRotZ =
      (tick flatH 1 0 initialState).rockerRRotZ :=
  ⟨rfl, (suspension_sides_independent bumpLeftH flatH 1 0 initialState rfl).1
    (fun a b hb => by
      simp only [bumpLeftH, flatH]
      rw [if_neg (by linarith : ¬ (1 : ℝ) ≤ b)])⟩

/-- C8: the per-tick elapsed time is not clamped; evaluating the tick at the
stall value dt = 20 from the initial state (with a tilted root) advances the
position by the full 3.0 * 20 = 60 units in a single step and scales the
orientation interpolation factor to dt * 5 = 100, hurling the smoothed
pitch from 1 to -99, far past its target 0. -/
theorem dt_unclamped_propagates :
    (tick flatH 20 0 stalledState).posX = stalledState.posX + 3.0 * 20
    ∧ stalledState.rotZ = 1
    ∧ (tick flatH 20 0 stalledState).rotZ = -99 := by
  have hnw : ¬ didWrap 20 stalledState := by
    rintro ⟨hmov, hgt⟩
    rw [moveX, if_pos hmov] at hgt
    norm_num [stalledState, initialState] at hgt
  refine ⟨?_, rfl, ?_⟩
  · rw [tick_posX, if_neg hnw, moveX,
      if_pos (show stalledState.missionState = Mission.DRIVE_OUT ∨
        stalledState.missionState = Mission.RETURN from Or.inl rfl)]
  · rw [tick_rotZ, tick_posX, if_neg hnw]
    have hpt : pitchTarget flatH (moveX 20 stalledState) stalledState.posZ = 0 := by
      unfold pitchTarget flatH
      rw [atan2_of_pos _ _ (by norm_num)]
      norm_num
    rw [hpt]
    unfold lerp
    norm_num [stalledState, initialState]

/-- C9 counterexample: with mount node, canvas child and listener all held,
the first teardown succeeds but running teardown twice in a row throws
NotFoundError from the second removeChild, so teardown is not idempotent. -/
theorem teardown_double_error_counterexample :
    teardown fullyMounted =
      Except.ok
        { resizeListener := false, childAttached := false,
          mountPresent := true, disposed := true }
    ∧ teardownTwice fullyMounted = Except.error DomError.notFound := by
  exact ⟨rfl, rfl⟩

/-- C9 (amended): the listener removal and renderer disposal are individually
idempotent, but the teardown as a whole is not: a second call throws
NotFoundError from removeChild whenever the mount ref is still set, and a
double teardown is error-free exactly when the mount ref is null. -/
theorem teardown_amended (e : TeardownEnv) :
    (e.mountPresent = false →
      teardownTwice e = Except.ok
        { resizeListener := false, childAttached := e.childAttached,
          mountPresent := false, disposed := true })
    ∧ (e.mountPresent = true → e.childAttached = true →
      teardownTwice e = Except.error DomError.notFound) := by
  rcases e with ⟨r, c, m, d⟩
  constructor
  · rintro rfl
    rfl
  · rintro rfl rfl
    rfl

/-- C9 witness: the amended characterisation applied to a state whose mount
ref was already cleared, where the double teardown is indeed error-free. -/
theorem teardown_amended_witness :
    clearedMount.mountPresent = false ∧
    teardownTwice clearedMount = Except.ok
      { resizeListener := false, childAttached := clearedMount.childAttached,
        mountPresent := false, disposed := true } :=
  ⟨rfl, (teardown_amended clearedMount).1 rfl⟩

/-- C10 counterexample: in DRIVE_OUT at position 59 a tick with dt = 1 moves
the position to -60, not to 59 + 3.0 * 1 — on a wrap tick the position in a
moving phase decreases instead of increasing by speed times dt. -/
theorem frame_effect_counterexample :
    driveNearEdgeState.missionState = Mission.DRIVE_OUT
    ∧ (tick flatH 1 0 driveNearEdgeState).posX = -60
    ∧ (tick flatH 1 0 driveNearEdgeState).posX ≠ driveNearEdgeState.posX + 3.0 * 1 := by
  have hw : didWrap 1 driveNearEdgeState :=
    ⟨Or.inl rfl, by norm_num [moveX, driveNearEdgeState, initialState]⟩
  have hx : (tick flatH 1 0 driveNearEdgeState).posX = -60 := by
    rw [tick_posX, if_pos hw]
  refine ⟨rfl, hx, ?_⟩
  rw [hx]
  norm_num [driveNearEdgeState, initialState]

/-- C10 (amended): the lateral coordinate is never modified (and starts at
0), the position is untouched in SCAN and SAMPLE, and in the moving phases
DRIVE_OUT and RETURN the position advances by exactly 3.0 * dt unless that
carries it past 60, in which case it wraps to -60. -/
theorem frame_effect_amended (h : ℝ → ℝ → ℝ) (dt time : ℝ) (s : RoverState) :
    (tick h dt time s).posZ = s.posZ
    ∧ initialState.posZ = 0
    ∧ (s.missionState = Mission.SCAN → (tick h dt time s).posX = s.posX)
    ∧ (s.missionState = Mission.SAMPLE → (tick h dt time s).posX = s.posX)
    ∧ ((s.missionState = Mission.DRIVE_OUT ∨ s.missionState = Mission.RETURN) →
        (tick h dt time s).posX =
          if 60 < s.posX + 3.0 * dt then -60 else s.posX + 3.0 * dt) := by
  refine ⟨tick_posZ h dt time s, rfl, ?_, ?_, ?_⟩
  · intro hm
    have hnm : ¬ (s.missionState = Mission.DRIVE_OUT ∨ s.missionState = Mission.RETURN) := by
      rintro (h1 | h1) <;> rw [hm] at h1 <;> simp at h1
    rw [tick_posX, if_neg (fun hw => hnm hw.1), moveX, if_neg hnm]
  · intro hm
    have hnm : ¬ (s.missionState = Mission.DRIVE_OUT ∨ s.missionState = Mission.RETURN) := by
      rintro (h1 | h1) <;> rw [hm] at h1 <;> simp at h1
    rw [tick_posX, if_neg (fun hw => hnm hw.1), moveX, if_neg hnm]
  · intro hmov
    have hmx : moveX dt s = s.posX + 3.0 * dt := by rw [moveX, if_pos hmov]
    rw [tick_posX]
    by_cases hgt : 60 < s.posX + 3.0 * dt
    · rw [if_pos (⟨hmov, by rwa [hmx]⟩ : didWrap dt s), if_pos hgt]
    · rw [if_neg (fun hw => hgt (hmx ▸ hw.2)), if_neg hgt, hmx]

/-- C10 witness: a SCAN tick leaves the position unchanged. -/
theorem frame_effect_witness :
    scanIdleState.missionState = Mission.SCAN ∧
    (tick flatH 1 0 scanIdleState).posX = scanIdleState.posX :=
  ⟨rfl, (frame_effect_amended flatH 1 0 scanIdleState).2.2.1 rfl⟩
